import Mathlib

/-!
Verification of the ansible cmake module (src/modules/cmake.py) against its
specification.  The module is embedded shallowly: the pure command builder is
a Lean function on strings; the effectful parts (filesystem probes, mkdtemp,
archive extraction, subprocess execution, directory removal) are modelled by
an oracle environment supplying the answers the OS would give, and every
side-effecting call the module makes is recorded in an effect trace.
-/

namespace Cmake

/-- Result of one run_command invocation: exit code, stdout, stderr. -/
structure SubprocResult where
  rc : Int
  out : String
  err : String
deriving DecidableEq

/-- Oracle for the OS-dependent behaviour of one run: the answers of the
filesystem probes, the (fresh) names returned by the two possible mkdtemp
calls, and the results of the two possible subprocess invocations. -/
structure Env where
  isdir : String → Bool
  isfile : String → Bool
  is_tarfile : String → Bool
  is_zipfile : String → Bool
  mkdtemp1 : String
  mkdtemp2 : String
  configure_result : SubprocResult
  install_result : SubprocResult

/-- One side-effecting OS call made by the module, in program order. -/
inductive Effect where
  | mkdir (path : String)
  | extractTar (archive : String) (dest : String)
  | extractZip (archive : String) (dest : String)
  | runCmd (cmd : String) (cwd : String)
  | rmtree (path : String)
deriving DecidableEq

/-- Outcome of a run: module.fail_json with a message, or module.exit_json
with the changed flag and the reported install_dir. -/
inductive ModuleResult where
  | failJson (msg : String)
  | exitJson (changed : Bool) (install_dir : String)
deriving DecidableEq

/-- The caller-supplied parameters of the module. -/
structure Params where
  src : String
  defines : Option (List (String × String))
  install_dir : String
  cmake : String
deriving DecidableEq

/-- Embedding of find_root_cmake: returns its input unchanged. -/
def find_root_cmake (src_dir : String) : String :=
  src_dir

/-- Embedding of prepare_if_archive: directory passes through; otherwise a
file that is a tar archive is extracted into a fresh scratch directory, then
a file that is a zip archive likewise; anything else yields None.  Returns
the optional prepared directory and the effect trace of the call. -/
def prepare_if_archive (env : Env) (src : String) : Option String × List Effect :=
  if env.isdir src then
    (some src, [])
  else if env.isfile src && env.is_tarfile src then
    (some env.mkdtemp1, [Effect.mkdir env.mkdtemp1, Effect.extractTar src env.mkdtemp1])
  else if env.isfile src && env.is_zipfile src then
    (some env.mkdtemp1, [Effect.mkdir env.mkdtemp1, Effect.extractZip src env.mkdtemp1])
  else
    (none, [])

/-- Embedding of create_cmake_command: the tool path, the install-prefix
flag, one -Dname=value segment per defines entry in iteration order (skipped
when defines is None or empty, matching Python truthiness), then the project
directory. -/
def create_cmake_command (cmake_path : String) (project_dir : String)
    (install_dir : String) (defines : Option (List (String × String))) : String :=
  let command := cmake_path
  let command := command ++ " -DCMAKE_INSTALL_PREFIX=" ++ install_dir
  let command :=
    match defines with
    | some ds =>
      if ds.isEmpty then command
      else ds.foldl (fun c d => c ++ " -D" ++ d.1 ++ "=" ++ d.2) command
    | none => command
  command ++ " " ++ project_dir

/-- Embedding of main: prepare, locate, configure, install, cleanup.  The
falsiness tests on src_dir and cmake_dir mirror Python (None or the empty
string).  Returns the final module result and the full effect trace. -/
def main (env : Env) (p : Params) : ModuleResult × List Effect :=
  let prep := prepare_if_archive env p.src
  match prep.1 with
  | none => (ModuleResult.failJson "Source is not a directory or known archive format", prep.2)
  | some src_dir =>
    if src_dir.isEmpty then
      (ModuleResult.failJson "Source is not a directory or known archive format", prep.2)
    else
      let cmake_dir := find_root_cmake src_dir
      if cmake_dir.isEmpty then
        (ModuleResult.failJson "Could not find CMake root directory", prep.2)
      else
        let build_dir := env.mkdtemp2
        let cmake_command := create_cmake_command p.cmake cmake_dir p.install_dir p.defines
        let eff2 := prep.2 ++ [Effect.mkdir build_dir, Effect.runCmd cmake_command build_dir]
        let conf := env.configure_result
        if conf.rc ≠ 0 then
          let cleanup := (if src_dir ≠ p.src then [Effect.rmtree src_dir] else []) ++
            [Effect.rmtree build_dir]
          (ModuleResult.failJson ("Failed to generate build files, exit code " ++ conf.err),
            eff2 ++ cleanup)
        else
          let inst := env.install_result
          let eff3 := eff2 ++ [Effect.runCmd "make install" build_dir]
          if inst.rc ≠ 0 then
            let cleanup := (if src_dir ≠ p.src then [Effect.rmtree src_dir] else []) ++
              [Effect.rmtree build_dir]
            (ModuleResult.failJson ("Failed to generate build files, exit code " ++ inst.err),
              eff3 ++ cleanup)
          else
            let cleanup := (if src_dir ≠ p.src then [Effect.rmtree src_dir] else []) ++
              [Effect.rmtree build_dir]
            (ModuleResult.exitJson true p.install_dir, eff3 ++ cleanup)

/-- Spec-side shape of the defines portion of the command: one
-Dname=value segment per mapping entry, in iteration order. -/
def defineSegs : List (String × String) → String
  | [] => ""
  | d :: rest => " -D" ++ d.1 ++ "=" ++ d.2 ++ defineSegs rest

/-- Oracle for a run whose source is a pre-existing directory and whose two
subprocesses both succeed. -/
def envDir : Env :=
  ⟨fun s => s == "/proj", fun _ => false, fun _ => false, fun _ => false,
    "/tmp/scratch1", "/tmp/build1", ⟨0, "", ""⟩, ⟨0, "", ""⟩⟩

def pDir : Params := ⟨"/proj", none, "/opt/x", "cmake"⟩

/-- Oracle for a run whose source is a tar archive file. -/
def envTar : Env :=
  ⟨fun _ => false, fun s => s == "/proj.tar", fun s => s == "/proj.tar", fun _ => false,
    "/tmp/scratch1", "/tmp/build1", ⟨0, "", ""⟩, ⟨0, "", ""⟩⟩

def pTar : Params := ⟨"/proj.tar", none, "/opt/x", "cmake"⟩

/-- Oracle for a source file recognized both as a tar and as a zip archive. -/
def envBoth : Env :=
  ⟨fun _ => false, fun s => s == "/both.bin", fun s => s == "/both.bin",
    fun s => s == "/both.bin",
    "/tmp/scratch1", "/tmp/build1", ⟨0, "", ""⟩, ⟨0, "", ""⟩⟩

/-- Oracle for a source that is neither a directory nor a recognized archive. -/
def envBad : Env :=
  ⟨fun _ => false, fun _ => false, fun _ => false, fun _ => false,
    "/tmp/scratch1", "/tmp/build1", ⟨0, "", ""⟩, ⟨0, "", ""⟩⟩

def pBad : Params := ⟨"/nosuch", none, "/opt/x", "cmake"⟩

/-- Oracle for a directory source whose configure step exits with code 1 and
stderr boom. -/
def envConfFail : Env :=
  ⟨fun s => s == "/proj", fun _ => false, fun _ => false, fun _ => false,
    "/tmp/scratch1", "/tmp/build1", ⟨1, "", "boom"⟩, ⟨0, "", ""⟩⟩

/-- A string distinct from the empty string has isEmpty false. -/
theorem isEmpty_false_of_ne (s : String) (h : s ≠ "") : s.isEmpty = false := by
  cases hs : s.isEmpty with
  | false => rfl
  | true => exact absurd ((String.isEmpty_iff s).mp hs) h

/-- The accumulating fold of the command builder appends defineSegs. -/
theorem foldl_defineSegs (ds : List (String × String)) (init : String) :
    ds.foldl (fun c d => c ++ " -D" ++ d.1 ++ "=" ++ d.2) init = init ++ defineSegs ds := by
  induction ds generalizing init with
  | nil => simp [defineSegs]
  | cons d t ih =>
    simp only [List.foldl_cons, defineSegs]
    rw [ih]
    simp [String.append_assoc]

/-- Unfolding of main once prepare_if_archive returned a usable directory. -/
theorem main_of_prepared (env : Env) (p : Params) (d : String) (effs : List Effect)
    (hprep : prepare_if_archive env p.src = (some d, effs))
    (hne : d ≠ "") :
    main env p =
      if env.configure_result.rc ≠ 0 then
        (ModuleResult.failJson ("Failed to generate build files, exit code " ++
            env.configure_result.err),
          (effs ++ [Effect.mkdir env.mkdtemp2,
            Effect.runCmd (create_cmake_command p.cmake d p.install_dir p.defines)
              env.mkdtemp2]) ++
          ((if d ≠ p.src then [Effect.rmtree d] else []) ++ [Effect.rmtree env.mkdtemp2]))
      else if env.install_result.rc ≠ 0 then
        (ModuleResult.failJson ("Failed to generate build files, exit code " ++
            env.install_result.err),
          ((effs ++ [Effect.mkdir env.mkdtemp2,
            Effect.runCmd (create_cmake_command p.cmake d p.install_dir p.defines)
              env.mkdtemp2]) ++
            [Effect.runCmd "make install" env.mkdtemp2]) ++
          ((if d ≠ p.src then [Effect.rmtree d] else []) ++ [Effect.rmtree env.mkdtemp2]))
      else
        (ModuleResult.exitJson true p.install_dir,
          ((effs ++ [Effect.mkdir env.mkdtemp2,
            Effect.runCmd (create_cmake_command p.cmake d p.install_dir p.defines)
              env.mkdtemp2]) ++
            [Effect.runCmd "make install" env.mkdtemp2]) ++
          ((if d ≠ p.src then [Effect.rmtree d] else []) ++ [Effect.rmtree env.mkdtemp2])) := by
  simp only [main, hprep, find_root_cmake, isEmpty_false_of_ne d hne,
    Bool.false_eq_true, if_false]

/-- Unfolding of main when prepare_if_archive returned None. -/
theorem main_of_prepared_none (env : Env) (p : Params) (effs : List Effect)
    (hprep : prepare_if_archive env p.src = (none, effs)) :
    main env p =
      (ModuleResult.failJson "Source is not a directory or known archive format", effs) := by
  simp only [main, hprep]

/-- Unfolding of main when prepare_if_archive returned the empty string. -/
theorem main_of_prepared_empty (env : Env) (p : Params) (effs : List Effect)
    (hprep : prepare_if_archive env p.src = (some "", effs)) :
    main env p =
      (ModuleResult.failJson "Source is not a directory or known archive format", effs) := by
  simp only [main, hprep]
  rfl

/-- C1: for every run whose source is a valid tar or zip archive (so the
prepared source directory is archive-derived), on every exit path of main —
success, configure failure, or install failure — both the archive-derived
scratch directory and the build directory are removed before the run
produces its final result. -/
theorem archive_run_removes_scratch_and_build (env : Env) (p : Params)
    (hdir : env.isdir p.src = false)
    (hfile : env.isfile p.src = true)
    (harch : env.is_tarfile p.src = true ∨ env.is_zipfile p.src = true)
    (hfresh : env.mkdtemp1 ≠ p.src)
    (hnonempty : env.mkdtemp1 ≠ "") :
    Effect.rmtree env.mkdtemp1 ∈ (main env p).2 ∧
      Effect.rmtree env.mkdtemp2 ∈ (main env p).2 := by
  have hprep : (prepare_if_archive env p.src).1 = some env.mkdtemp1 ∧
      ((prepare_if_archive env p.src).2 =
          [Effect.mkdir env.mkdtemp1, Effect.extractTar p.src env.mkdtemp1] ∨
        (prepare_if_archive env p.src).2 =
          [Effect.mkdir env.mkdtemp1, Effect.extractZip p.src env.mkdtemp1]) := by
    by_cases htar : env.is_tarfile p.src = true
    · simp [prepare_if_archive, hdir, hfile, htar]
    · have hzip : env.is_zipfile p.src = true := by
        rcases harch with h | h
        · exact absurd h htar
        · exact h
      have htarf : env.is_tarfile p.src = false := by
        cases h : env.is_tarfile p.src
        · rfl
        · exact absurd h htar
      simp [prepare_if_archive, hdir, hfile, htarf, hzip]
  have hpair : prepare_if_archive env p.src =
      (some env.mkdtemp1, (prepare_if_archive env p.src).2) := by
    rw [Prod.ext_iff]
    exact ⟨hprep.1, rfl⟩
  rw [main_of_prepared env p env.mkdtemp1 (prepare_if_archive env p.src).2 hpair hnonempty]
  have hif : (if env.mkdtemp1 ≠ p.src then [Effect.rmtree env.mkdtemp1] else [])
      = [Effect.rmtree env.mkdtemp1] := if_pos hfresh
  simp only [hif]
  split_ifs <;> simp

/-- C1 witness at a concrete tar-archive source. -/
theorem archive_run_removes_scratch_and_build_witness :
    Effect.rmtree envTar.mkdtemp1 ∈ (main envTar pTar).2 ∧
      Effect.rmtree envTar.mkdtemp2 ∈ (main envTar pTar).2 :=
  archive_run_removes_scratch_and_build envTar pTar rfl rfl (Or.inl rfl)
    (by decide) (by decide)

/-- C2 (evidence of the code bug): at a concrete failing input with configure
exit code 1 and stderr boom, the failure message interpolates the stderr into
the slot labelled exit code, so the message never contains the exit code 1. -/
theorem configure_failure_message_omits_exit_code :
    envConfFail.configure_result.rc = 1 ∧
    envConfFail.configure_result.err = "boom" ∧
    (main envConfFail pDir).1 =
      ModuleResult.failJson "Failed to generate build files, exit code boom" ∧
    ('1' ∈ ("Failed to generate build files, exit code boom").data) = False := by
  refine ⟨rfl, rfl, by decide, by decide⟩

/-- C3: for every tool path, project directory, install directory, and
non-empty defines mapping, the command builder produces the tool path, the
install-prefix flag set to the install directory, one -Dname=value segment
per mapping entry in iteration order, then the project directory last. -/
theorem create_cmake_command_with_defines (tool proj inst : String)
    (ds : List (String × String)) (hne : ds ≠ []) :
    create_cmake_command tool proj inst (some ds) =
      tool ++ " -DCMAKE_INSTALL_PREFIX=" ++ inst ++ defineSegs ds ++ " " ++ proj := by
  cases ds with
  | nil => exact absurd rfl hne
  | cons d t =>
    simp only [create_cmake_command, List.isEmpty_cons, Bool.false_eq_true, if_false]
    rw [foldl_defineSegs]

/-- C3 witness: the concrete example of the claim. -/
theorem create_cmake_command_with_defines_witness :
    create_cmake_command "cmake" "/src" "/opt/x" (some [("FOO", "1"), ("BAR", "2")]) =
      "cmake -DCMAKE_INSTALL_PREFIX=/opt/x -DFOO=1 -DBAR=2 /src" := by
  rw [create_cmake_command_with_defines "cmake" "/src" "/opt/x"
    [("FOO", "1"), ("BAR", "2")] (by decide)]
  rfl

/-- C4: when the defines mapping is absent, the command is exactly the tool
path, the install-prefix flag, and the project directory, with no
-Dname=value segments. -/
theorem create_cmake_command_no_defines (tool proj inst : String) :
    create_cmake_command tool proj inst none =
      tool ++ " -DCMAKE_INSTALL_PREFIX=" ++ inst ++ " " ++ proj := by
  simp [create_cmake_command, String.append_assoc]

/-- C5: when the source is neither an existing directory nor a file
recognized as a tar or zip archive, the run fails with the input-error
message and its effect trace is empty: no scratch resource was created. -/
theorem invalid_source_fails_with_no_effects (env : Env) (p : Params)
    (hdir : env.isdir p.src = false)
    (htar : (env.isfile p.src && env.is_tarfile p.src) = false)
    (hzip : (env.isfile p.src && env.is_zipfile p.src) = false) :
    main env p =
      (ModuleResult.failJson "Source is not a directory or known archive format", []) := by
  have hprep : prepare_if_archive env p.src = (none, []) := by
    simp [prepare_if_archive, hdir, htar, hzip]
  simp [main, hprep]

/-- C5 witness at a concrete invalid source. -/
theorem invalid_source_fails_with_no_effects_witness :
    main envBad pBad =
      (ModuleResult.failJson "Source is not a directory or known archive format", []) :=
  invalid_source_fails_with_no_effects envBad pBad rfl rfl rfl

/-- C6: the root locator returns its input unchanged unconditionally. -/
theorem find_root_cmake_returns_input (src_dir : String) :
    find_root_cmake src_dir = src_dir := rfl

/-- C7: when the source reference is a pre-existing directory, no exit path
of the run ever removes that directory. -/
theorem source_directory_never_removed (env : Env) (p : Params)
    (hdir : env.isdir p.src = true)
    (hfresh : env.mkdtemp2 ≠ p.src) :
    Effect.rmtree p.src ∉ (main env p).2 := by
  have hprep : prepare_if_archive env p.src = (some p.src, []) := by
    simp [prepare_if_archive, hdir]
  by_cases hne : p.src = ""
  · have hprep0 : prepare_if_archive env p.src = (some "", []) := by rw [hprep, hne]
    rw [main_of_prepared_empty env p [] hprep0]
    simp
  · rw [main_of_prepared env p p.src [] hprep hne]
    have hself : (if p.src ≠ p.src then [Effect.rmtree p.src] else []) = [] := by simp
    simp only [hself]
    have hns : p.src ≠ env.mkdtemp2 := Ne.symm hfresh
    split_ifs <;> simp [hns]

/-- C7 witness at a concrete directory source. -/
theorem source_directory_never_removed_witness :
    Effect.rmtree "/proj" ∉ (main envDir pDir).2 :=
  source_directory_never_removed envDir pDir rfl (by decide)

/-- C8: when the prepared source directory is usable and both the configure
and the install subprocesses exit with code zero, the run reports a success
record with changed true and install_dir the caller-supplied target. -/
theorem success_reports_changed_install_dir (env : Env) (p : Params)
    (d : String) (effs : List Effect)
    (hprep : prepare_if_archive env p.src = (some d, effs))
    (hne : d ≠ "")
    (hconf : env.configure_result.rc = 0)
    (hinst : env.install_result.rc = 0) :
    (main env p).1 = ModuleResult.exitJson true p.install_dir := by
  rw [main_of_prepared env p d effs hprep hne]
  simp [hconf, hinst]

/-- C8 witness at a concrete successful run. -/
theorem success_reports_changed_install_dir_witness :
    (main envDir pDir).1 = ModuleResult.exitJson true "/opt/x" :=
  success_reports_changed_install_dir envDir pDir "/proj" [] rfl (by decide) rfl rfl

/-- C9: a regular file recognized simultaneously as a valid tar archive and
as a valid zip archive is extracted with tar semantics, never zip semantics,
because the directory, tar, zip checks run in that fixed order. -/
theorem tar_takes_precedence_over_zip (env : Env) (src : String)
    (hdir : env.isdir src = false)
    (hfile : env.isfile src = true)
    (htar : env.is_tarfile src = true)
    (hzip : env.is_zipfile src = true) :
    prepare_if_archive env src =
      (some env.mkdtemp1,
        [Effect.mkdir env.mkdtemp1, Effect.extractTar src env.mkdtemp1]) ∧
      ∀ a z : String, Effect.extractZip a z ∉ (prepare_if_archive env src).2 := by
  have h : prepare_if_archive env src =
      (some env.mkdtemp1,
        [Effect.mkdir env.mkdtemp1, Effect.extractTar src env.mkdtemp1]) := by
    simp [prepare_if_archive, hdir, hfile, htar]
  refine ⟨h, ?_⟩
  intro a z
  rw [h]
  simp

/-- C9 witness at a concrete file that is both a tar and a zip archive. -/
theorem tar_takes_precedence_over_zip_witness :
    prepare_if_archive envBoth "/both.bin" =
      (some envBoth.mkdtemp1,
        [Effect.mkdir envBoth.mkdtemp1, Effect.extractTar "/both.bin" envBoth.mkdtemp1]) ∧
      ∀ a z : String, Effect.extractZip a z ∉ (prepare_if_archive envBoth "/both.bin").2 :=
  tar_takes_precedence_over_zip envBoth "/both.bin" rfl rfl rfl rfl

/-- The configure and install failure message never equals the location
error message, whatever the captured stderr is. -/
theorem failed_msg_ne_locate (e : String) :
    ("Failed to generate build files, exit code " ++ e) ≠
      "Could not find CMake root directory" := by
  intro h
  have hl := congrArg String.length h
  rw [String.length_append] at hl
  have h1 : ("Failed to generate build files, exit code ").length = 42 := rfl
  have h2 : ("Could not find CMake root directory").length = 35 := rfl
  rw [h1, h2] at hl
  omega

/-- C10: the location-error branch of main is unreachable: no run ever
produces the failure message of that branch. -/
theorem locate_error_unreachable (env : Env) (p : Params) :
    (main env p).1 ≠ ModuleResult.failJson "Could not find CMake root directory" := by
  rcases hp : prepare_if_archive env p.src with ⟨osd, effs⟩
  cases osd with
  | none =>
    rw [main_of_prepared_none env p effs hp]
    intro h
    exact absurd (ModuleResult.failJson.inj h) (by decide)
  | some d =>
    by_cases hne : d = ""
    · subst hne
      rw [main_of_prepared_empty env p effs hp]
      intro h
      exact absurd (ModuleResult.failJson.inj h) (by decide)
    · rw [main_of_prepared env p d effs hp hne]
      split_ifs <;> simp [failed_msg_ne_locate]

end Cmake
